import Mathlib

/-!
Shallow embedding of the dubbo hessian2 wire codec (package hessian2,
file with HessianCodec: Write, ReadHeader, ReadBody, ReadAttachments)
and proofs about its claims.

Machine integers are modelled as Nat/Int.  Go byte values are Nat, with
hypotheses `< 256` added where faithfulness to Go bytes requires them.
Go `int` is modelled as `Int` without wraparound: on the 64-bit
platforms this code targets, Go `int` is 64 bits wide and none of the
arithmetic in the codec (conversions from uint32, comparisons with
buffer lengths) can overflow 64 bits, so `Int` is exact.  `int64`
conversion from `uint64` is the two complement reinterpretation
`toInt64` below.

The bufio.Reader is used in two disjoint ways, chosen once by the
`stream` flag of the codec: buffered mode uses only Size / Peek /
Discard / Buffered, streaming mode uses only Read.  We model the two
facets by two reader states carried by the codec, `breader` for the
buffered facet and `sreader` for the streaming facet; the codec only
touches the facet selected by its `stream` flag, mirroring the source.
Buffered mode is modelled with the underlying source exhausted: every
byte that will ever be available is already in the bufio buffer, so
Buffered() is the currently available count, Size() is the buffer
capacity, and a Peek beyond the available bytes fails with the
underlying read error (EOF) instead of blocking.
-/

namespace Hessian2

/-! ## Constants

The package type constants are from the source file.  The remaining
wire constants (magic bytes, flag bits, serialization mask, OK status,
header length) live in a constants file of the repository that is not
part of the excerpt. -/

def PackageError : Nat := 0x01

def PackageRequest : Nat := 0x02

def PackageResponse : Nat := 0x04

def PackageHeartbeat : Nat := 0x08

def PackageRequest_TwoWay : Nat := 0x10

def PackageResponse_Exception : Nat := 0x20

def PackageType_BitSize : Nat := 0x2f

/-- Modelled from the spec: the 16 byte fixed header length (the
constant HEADER_LENGTH is not in the excerpt). -/
def HEADER_LENGTH : Nat := 16

/-- Modelled from the spec: first byte of the 2 byte magic constant
(the constant MAGIC_HIGH is not in the excerpt; the spec fixes a two
byte protocol magic, the concrete value 0xda is the dubbo one). -/
def MAGIC_HIGH : Nat := 0xda

/-- Modelled from the spec: second byte of the 2 byte magic constant
(the constant MAGIC_LOW is not in the excerpt). -/
def MAGIC_LOW : Nat := 0xbb

/-- Modelled from the spec: 5 bit mask extracting the serialization id
from the flag byte (the constant SERIAL_MASK is not in the excerpt). -/
def SERIAL_MASK : Nat := 0x1f

/-- Modelled from the spec: the event/heartbeat bit of the flag byte
(the constant FLAG_EVENT is not in the excerpt; a bit disjoint from the
5 bit serialization field). -/
def FLAG_EVENT : Nat := 0x20

/-- Modelled from the spec: the request bit of the flag byte (the
constant FLAG_REQUEST is not in the excerpt). -/
def FLAG_REQUEST : Nat := 0x80

/-- Modelled from the spec: the two way bit of the flag byte (the
constant FLAG_TWOWAY is not in the excerpt). -/
def FLAG_TWOWAY : Nat := 0x40

/-- Modelled from the spec: the zero byte value (the constant Zero is
not in the excerpt). -/
def Zero : Nat := 0x00

/-- Modelled from the spec: the canonical OK response status (the
constant Response_OK is not in the excerpt; the concrete value 20 is
the dubbo one, any nonzero byte works the same way in the claims). -/
def Response_OK : Nat := 20

/-! ## Errors

The sentinel errors (ErrHeaderNotEnough, ErrBodyNotEnough,
ErrIllegalPackage) and the perrors wrapped errors are modelled as one
inductive. -/

inductive CodecErr where
  /-- ErrHeaderNotEnough -/
  | headerNotEnough : CodecErr
  /-- ErrBodyNotEnough -/
  | bodyNotEnough : CodecErr
  /-- ErrIllegalPackage -/
  | illegalPackage : CodecErr
  /-- perrors.Errorf with the serialization ID text, raised when the
  decoded serialization id is zero -/
  | serialIDZero : CodecErr
  /-- a wrapped error from the underlying reader (perrors.WithStack) -/
  | ioErr : CodecErr
  /-- perrors.Errorf naming an unrecognized message type on Write -/
  | unrecognizedType (t : Nat) : CodecErr
  /-- perrors.Errorf embedding a decoded java exception text -/
  | javaException (s : String) : CodecErr
  /-- a wrapped error from the external hessian decoder -/
  | decodeFail : CodecErr
deriving DecidableEq, Repr

/-! ## Readers -/

/-- The buffered facet of a bufio.Reader whose underlying source is
exhausted: `buf` is the currently buffered bytes, `size` the capacity
of the internal buffer (Go bufio never constructs one below 16). -/
structure BufReader where
  buf : List Nat
  size : Nat
deriving DecidableEq, Repr

/-- bufio.Reader.Size: the capacity of the internal buffer. -/
def BufReader.Size (r : BufReader) : Nat := r.size

/-- bufio.Reader.Buffered: the count of bytes currently readable from
the buffer. -/
def BufReader.Buffered (r : BufReader) : Nat := r.buf.length

/-- bufio.Reader.Peek on an exhausted source: n available bytes are
returned without consuming them; asking beyond the available count
fails with the pending read error of the source (EOF). -/
def BufReader.Peek (r : BufReader) (n : Nat) : Except Unit (List Nat) :=
  if n ≤ r.buf.length then .ok (r.buf.take n) else .error ()

/-- bufio.Reader.Discard on an exhausted source: drops n buffered
bytes, failing if fewer are available. -/
def BufReader.Discard (r : BufReader) (n : Nat) : Except Unit BufReader :=
  if n ≤ r.buf.length then .ok ⟨r.buf.drop n, r.size⟩ else .error ()

/-- One result of a Read call on the streaming facet: either a chunk of
bytes (its length is the n returned by Read) or a read error. -/
inductive ReadResult where
  | bytes (chunk : List Nat) : ReadResult
  | fail : ReadResult
deriving DecidableEq, Repr

/-- The streaming facet of the reader: the sequence of results the
successive Read calls will produce.  An exhausted sequence behaves as a
read error (EOF). -/
structure StreamReader where
  reads : List ReadResult
deriving DecidableEq, Repr

/-- One Read call: pops the next result. -/
def StreamReader.Read (s : StreamReader) : Except Unit (List Nat) × StreamReader :=
  match s.reads with
  | [] => (.error (), ⟨[]⟩)
  | .fail :: rest => (.error (), ⟨rest⟩)
  | .bytes c :: rest => (.ok c, ⟨rest⟩)

/-! ## Data model -/

/-- DubboHeader, with the Go zero values as defaults.  `Type` is the
package type bitmask (Go PackageType, an int, only ever carrying OR
combinations of the constants above). -/
structure DubboHeader where
  SerialID : Nat := 0
  Type' : Nat := 0
  ID : Int := 0
  BodyLen : Int := 0
  ResponseStatus : Nat := 0
deriving DecidableEq, Repr

/-- The empty header a caller passes to ReadHeader. -/
def emptyHeader : DubboHeader := {}

/-- HessianCodec session state.  `breader` and `sreader` are the two
facets of the single bufio.Reader, see the file comment. -/
structure HessianCodec where
  pkgType : Nat := 0
  bodyLen : Int := 0
  stream : Bool := false
  breader : BufReader := ⟨[], 0⟩
  sreader : StreamReader := ⟨[]⟩
deriving DecidableEq, Repr

/-! ## Integer conversions -/

/-- Go int64(u) for a uint64 value u: two complement
reinterpretation. -/
def toInt64 (u : Nat) : Int :=
  if u < 2 ^ 63 then (u : Int) else (u : Int) - 2 ^ 64

/-- binary.BigEndian: the big endian value of the n bytes of `buf`
starting at offset `off` (out of range indices read as 0, matching the
zero initialised Go buffer). -/
def beBytes (buf : List Nat) (off : Nat) : Nat → Nat
  | 0 => 0
  | n + 1 => beBytes buf off n * 256 + buf.getD (off + n) 0

/-! ## ReadHeader -/

/-- Lines 156 to 200 of the source: decode the 16 acquired header
bytes into the caller supplied header (mutated in place, modelled by
returning it), record type and body length on the session, and in
buffered mode check body availability.  Returns the error status, the
header as mutated so far, and the session. -/
def decodeAndFinish (h : HessianCodec) (header : DubboHeader) (buf : List Nat) :
    Except CodecErr Unit × DubboHeader × HessianCodec :=
  let b : Nat → Nat := fun i => buf.getD i 0
  if b 0 ≠ MAGIC_HIGH ∧ b 1 ≠ MAGIC_LOW then
    (.error .illegalPackage, header, h)
  else
    let header := { header with SerialID := Nat.land (b 2) SERIAL_MASK }
    if header.SerialID = Zero then
      (.error .serialIDZero, header, h)
    else
      let header := if Nat.land (b 2) FLAG_EVENT ≠ Zero then
          { header with Type' := Nat.lor header.Type' PackageHeartbeat } else header
      let header :=
        if Nat.land (b 2) FLAG_REQUEST ≠ Zero then
          let header := { header with Type' := Nat.lor header.Type' PackageRequest }
          if Nat.land (b 2) FLAG_TWOWAY ≠ Zero then
            { header with Type' := Nat.lor header.Type' PackageRequest_TwoWay }
          else header
        else
          let header := { header with
                            Type' := Nat.lor header.Type' PackageResponse,
                            ResponseStatus := b 3 }
          if header.ResponseStatus ≠ Response_OK then
            { header with Type' := Nat.lor header.Type' PackageResponse_Exception }
          else header
      let header := { header with ID := toInt64 (beBytes buf 4 8) }
      let header := { header with BodyLen := (beBytes buf 12 4 : Int) }
      if header.BodyLen < 0 then
        (.error .illegalPackage, header, h)
      else
        let h := { h with pkgType := header.Type', bodyLen := header.BodyLen }
        if (h.breader.Buffered : Int) < h.bodyLen ∧ h.stream = false then
          (.error .bodyNotEnough, header, h)
        else
          (.ok (), header, h)

/-- The streaming acquisition of lines 128 to 139: one Read into a 16
byte zero initialised buffer; if it was short, exactly one more Read
into the remainder; any read error is returned.  The acquired buffer
is the returned bytes padded with the untouched zeros. -/
def acquireHeaderStream (s : StreamReader) : Except Unit (List Nat) × StreamReader :=
  match s.Read with
  | (.error _, s1) => (.error (), s1)
  | (.ok c1, s1) =>
    if c1.length < HEADER_LENGTH then
      match s1.Read with
      | (.error _, s2) => (.error (), s2)
      | (.ok c2, s2) =>
        (.ok ((c1 ++ c2).take HEADER_LENGTH ++
          List.replicate (HEADER_LENGTH - (c1 ++ c2).length) 0), s2)
    else
      (.ok (c1.take HEADER_LENGTH ++ List.replicate (HEADER_LENGTH - c1.length) 0), s1)

/-- HessianCodec.ReadHeader.  The Go method mutates both the caller
supplied header and the receiver; the model returns the error status
together with both. -/
def readHeader (h : HessianCodec) (header : DubboHeader) :
    Except CodecErr Unit × DubboHeader × HessianCodec :=
  if h.stream then
    match acquireHeaderStream h.sreader with
    | (.error _, s1) => (.error .ioErr, header, { h with sreader := s1 })
    | (.ok buf, s1) => decodeAndFinish { h with sreader := s1 } header buf
  else
    if h.breader.Size < HEADER_LENGTH then
      (.error .headerNotEnough, header, h)
    else
      match h.breader.Peek HEADER_LENGTH with
      | .error _ => (.error .ioErr, header, h)
      | .ok buf =>
        match h.breader.Discard HEADER_LENGTH with
        | .error _ => (.error .ioErr, header, h)
        | .ok r1 => decodeAndFinish { h with breader := r1 } header buf

/-! ## External collaborators

The hessian decoder and the request/response unpackers are external to
this file of the repository; the spec treats them as opaque.  Decoded
dynamic (Go `any`) values are modelled by `HValue`; the collaborators
are passed to the read operations as function parameters. -/

/-- A dynamically typed value produced by the external hessian
decoder: a string, a string keyed map, or anything else. -/
inductive HValue where
  | vstring (s : String) : HValue
  | vmap (m : List (String × String)) : HValue
  | vother : HValue
deriving DecidableEq, Repr

/-- Modelled from the spec: the DubboResponse result container (its
declaration is not in the excerpt).  `Exception` holds the stored
application level failure text, `Attachments` the attachment map (none
is the Go nil map). -/
structure DubboResponse where
  Exception : Option String := none
  Attachments : Option (List (String × String)) := none
deriving DecidableEq, Repr

/-- The caller supplied result slot of ReadBody, a Go `any`: nil, a
pointer to a DubboResponse, or some other container. -/
inductive RspObj where
  | nilObj : RspObj
  | dubboResponse (r : DubboResponse) : RspObj
  | other : RspObj
deriving DecidableEq, Repr

/-- The outcome of an operation that can also panic: Go type
assertions `x.(T)` on a wrong dynamic type do not return an error,
they abort the goroutine. -/
inductive Outcome (α : Type) where
  | ok (a : α) : Outcome α
  | err (e : CodecErr) : Outcome α
  | panicked : Outcome α
deriving DecidableEq, Repr

/-! ## Body acquisition (shared shape of ReadBody and ReadAttachments
lines 210 to 232 and 272 to 294: the two methods contain the identical
acquisition code) -/

/-- The streaming body loop: keep calling Read and appending until the
accumulated length reaches `need`; a read error (or an exhausted
source) is a failure. -/
def acquireBodyStreamAux (reads : List ReadResult) (need : Nat) (acc : List Nat) :
    Except Unit (List Nat) × List ReadResult :=
  if acc.length < need then
    match reads with
    | [] => (.error (), [])
    | .fail :: rest => (.error (), rest)
    | .bytes c :: rest => acquireBodyStreamAux rest need (acc ++ c)
  else
    (.ok acc, reads)

/-- Acquire bodyLen body bytes in the mode of the session, returning
the bytes and the advanced session. -/
def acquireBody (h : HessianCodec) : Except CodecErr (List Nat) × HessianCodec :=
  if h.stream then
    match acquireBodyStreamAux h.sreader.reads h.bodyLen.toNat [] with
    | (.error _, rest) => (.error .ioErr, { h with sreader := ⟨rest⟩ })
    | (.ok buf, rest) => (.ok buf, { h with sreader := ⟨rest⟩ })
  else
    if (h.breader.Buffered : Int) < h.bodyLen then
      (.error .bodyNotEnough, h)
    else
      match h.breader.Peek h.bodyLen.toNat with
      | .error _ => (.error .ioErr, h)
      | .ok buf =>
        match h.breader.Discard h.bodyLen.toNat with
        | .error _ => (.error .ioErr, h)
        | .ok r1 => (.ok buf, { h with breader := r1 })

/-! ## ReadBody -/

/-- The dispatch of ReadBody lines 234 to 262, given the acquired body
bytes.  `dec` is the external hessian decoder, `ureq` and `ursp` the
external unpackers acting on the caller slot (their mutation of the
slot is modelled by returning the updated slot).  The Go type
assertion `exception.(string)` panics when the decoded value is not a
string. -/
def dispatchBody (dec : List Nat → Except Unit HValue)
    (ureq : List Nat → RspObj → Except Unit RspObj)
    (ursp : List Nat → RspObj → Except Unit RspObj)
    (pkgType : Nat) (buf : List Nat) (rspObj : RspObj) : Outcome RspObj :=
  let k := Nat.land pkgType PackageType_BitSize
  if k = Nat.lor (Nat.lor PackageResponse PackageHeartbeat) PackageResponse_Exception ∨
      k = Nat.lor PackageResponse PackageResponse_Exception then
    match dec buf with
    | .error _ => .err .decodeFail
    | .ok exc =>
      match rspObj with
      | .dubboResponse r =>
        match exc with
        | .vstring s =>
          .ok (.dubboResponse { r with Exception := some ("java exception:" ++ s) })
        | _ => .panicked
      | _ =>
        match exc with
        | .vstring s => .err (.javaException s)
        | _ => .panicked
  else if k = Nat.lor PackageRequest PackageHeartbeat ∨
      k = Nat.lor PackageResponse PackageHeartbeat then
    .ok rspObj
  else if k = PackageRequest then
    match rspObj with
    | .nilObj => .ok rspObj
    | _ =>
      match ureq buf rspObj with
      | .error _ => .err .decodeFail
      | .ok obj => .ok obj
  else if k = PackageResponse then
    match rspObj with
    | .nilObj => .ok rspObj
    | _ =>
      match ursp buf rspObj with
      | .error _ => .err .decodeFail
      | .ok obj => .ok obj
  else
    .ok rspObj

/-- HessianCodec.ReadBody: acquire bodyLen bytes in the session mode,
then dispatch on the recorded package type. -/
def readBody (dec : List Nat → Except Unit HValue)
    (ureq : List Nat → RspObj → Except Unit RspObj)
    (ursp : List Nat → RspObj → Except Unit RspObj)
    (h : HessianCodec) (rspObj : RspObj) : Outcome RspObj × HessianCodec :=
  match acquireBody h with
  | (.error e, h1) => (.err e, h1)
  | (.ok buf, h1) => (dispatchBody dec ureq ursp h1.pkgType buf rspObj, h1)

/-! ## ReadAttachments -/

/-- The dispatch of ReadAttachments lines 296 to 311.  `ureq7` models
unpackRequestBody filling the fresh 7 slot argument list (returning its
final contents); `ursp7` models unpackResponseBody filling a fresh
DubboResponse.  The Go type assertion on the seventh slot panics when
it is not a string keyed map.  The returned `none` is the Go nil
map. -/
def dispatchAttachments (ureq7 : List Nat → Except Unit (List HValue))
    (ursp7 : List Nat → Except Unit DubboResponse)
    (pkgType : Nat) (buf : List Nat) : Outcome (Option (List (String × String))) :=
  let k := Nat.land pkgType PackageType_BitSize
  if k = PackageRequest then
    match ureq7 buf with
    | .error _ => .err .decodeFail
    | .ok l =>
      match l.getD 6 .vother with
      | .vmap m => .ok (some m)
      | _ => .panicked
  else if k = PackageResponse then
    match ursp7 buf with
    | .error _ => .err .decodeFail
    | .ok r => .ok r.Attachments
  else
    .ok none

/-- HessianCodec.ReadAttachments: the same body acquisition as
ReadBody, then the attachment only dispatch. -/
def readAttachments (ureq7 : List Nat → Except Unit (List HValue))
    (ursp7 : List Nat → Except Unit DubboResponse)
    (h : HessianCodec) : Outcome (Option (List (String × String))) × HessianCodec :=
  match acquireBody h with
  | (.error e, h1) => (.err e, h1)
  | (.ok buf, h1) => (dispatchAttachments ureq7 ursp7 h1.pkgType buf, h1)

/-! ## Write -/

/-- Which external packer Write routed to (packRequest and
packResponse are outside the excerpt and opaque), or the error of the
default case. -/
inductive WriteResult where
  | packedRequest : WriteResult
  | packedResponse : WriteResult
  | unrecognized (t : Nat) : WriteResult
deriving DecidableEq, Repr

/-- HessianCodec.Write lines 99 to 118: a switch on the exact header
type value.  The receiver is returned unchanged, as the Go method
never assigns to it. -/
def write (h : HessianCodec) (header : DubboHeader) : WriteResult × HessianCodec :=
  (if header.Type' = PackageHeartbeat then
    if header.ResponseStatus = Zero then .packedRequest else .packedResponse
  else if header.Type' = PackageRequest ∨ header.Type' = PackageRequest_TwoWay then
    .packedRequest
  else if header.Type' = PackageResponse then
    .packedResponse
  else
    .unrecognized header.Type', h)

/-! ## The spec side encoding (for the round trip claim)

These two definitions follow the words of spec section 4.1, to be
compared with the decoder embedded above. -/

/-- The spec section 4.1 header encoding: magic, flag byte (low 5 bits
the serialization id, then the event, request and two way bits),
status byte, 8 byte big endian request id, 4 byte big endian body
length. -/
def encodeHeader (sid : Nat) (event req twoway : Bool) (status rid blen : Nat) :
    List Nat :=
  [MAGIC_HIGH, MAGIC_LOW,
   Nat.lor (Nat.lor (Nat.lor sid (if event then FLAG_EVENT else 0))
     (if req then FLAG_REQUEST else 0)) (if twoway then FLAG_TWOWAY else 0),
   status,
   rid / 2 ^ 56 % 256, rid / 2 ^ 48 % 256, rid / 2 ^ 40 % 256, rid / 2 ^ 32 % 256,
   rid / 2 ^ 24 % 256, rid / 2 ^ 16 % 256, rid / 2 ^ 8 % 256, rid % 256,
   blen / 2 ^ 24 % 256, blen / 2 ^ 16 % 256, blen / 2 ^ 8 % 256, blen % 256]

/-- The package type bitmask the spec section 4.1 decoding rule
derives from the encoded flags: heartbeat if the event bit, then
request (plus two way) if the request bit, else response (plus
exception when the status is not OK). -/
def specType (event req twoway : Bool) (status : Nat) : Nat :=
  let t := if event then PackageHeartbeat else 0
  if req then
    let t := Nat.lor t PackageRequest
    if twoway then Nat.lor t PackageRequest_TwoWay else t
  else
    let t := Nat.lor t PackageResponse
    if status ≠ Response_OK then Nat.lor t PackageResponse_Exception else t

/-! ## Helper lemmas -/

/-- Recomposing the eight big endian request id bytes of an encoded
header gives the request id back. -/
theorem beBytes_encode_rid (sid : Nat) (event req twoway : Bool)
    (status rid blen : Nat) (hrid : rid < 2 ^ 64) :
    beBytes (encodeHeader sid event req twoway status rid blen) 4 8 = rid := by
  simp only [beBytes, encodeHeader, List.getD_cons_succ, List.getD_cons_zero]
  omega

/-- Recomposing the four big endian body length bytes of an encoded
header gives the body length back. -/
theorem beBytes_encode_blen (sid : Nat) (event req twoway : Bool)
    (status rid blen : Nat) (hblen : blen < 2 ^ 32) :
    beBytes (encodeHeader sid event req twoway status rid blen) 12 4 = blen := by
  simp only [beBytes, encodeHeader, List.getD_cons_succ, List.getD_cons_zero]
  omega

/-- The encoded header is 16 bytes long. -/
theorem encodeHeader_length (sid : Nat) (event req twoway : Bool)
    (status rid blen : Nat) :
    (encodeHeader sid event req twoway status rid blen).length = 16 := by
  simp [encodeHeader]

/-- Byte 0 of an encoded header. -/
theorem encodeHeader_getD_zero (sid : Nat) (e r t : Bool) (status rid blen : Nat) :
    (encodeHeader sid e r t status rid blen).getD 0 0 = MAGIC_HIGH := rfl

/-- Byte 1 of an encoded header. -/
theorem encodeHeader_getD_one (sid : Nat) (e r t : Bool) (status rid blen : Nat) :
    (encodeHeader sid e r t status rid blen).getD 1 0 = MAGIC_LOW := rfl

/-- Byte 2 (the flag byte) of an encoded header. -/
theorem encodeHeader_getD_two (sid : Nat) (e r t : Bool) (status rid blen : Nat) :
    (encodeHeader sid e r t status rid blen).getD 2 0 =
      Nat.lor (Nat.lor (Nat.lor sid (if e then FLAG_EVENT else 0))
        (if r then FLAG_REQUEST else 0)) (if t then FLAG_TWOWAY else 0) := rfl

/-- Byte 3 (the status byte) of an encoded header. -/
theorem encodeHeader_getD_three (sid : Nat) (e r t : Bool) (status rid blen : Nat) :
    (encodeHeader sid e r t status rid blen).getD 3 0 = status := rfl

/-- The 5 bit mask of the encoded flag byte recovers the
serialization id. -/
theorem land_if_serial (sid : Nat) (e r t : Bool) (h2 : sid ≤ 31) :
    Nat.land (Nat.lor (Nat.lor (Nat.lor sid (if e then FLAG_EVENT else 0))
      (if r then FLAG_REQUEST else 0)) (if t then FLAG_TWOWAY else 0)) SERIAL_MASK = sid := by
  rcases e <;> rcases r <;> rcases t <;>
    simp only [FLAG_EVENT, FLAG_REQUEST, FLAG_TWOWAY, SERIAL_MASK, if_true, if_false,
      Bool.false_eq_true, Bool.true_eq_false, ite_true, ite_false] <;>
    interval_cases sid <;> decide

/-- The event bit mask of the encoded flag byte recovers the event
component. -/
theorem land_if_event (sid : Nat) (e r t : Bool) (h2 : sid ≤ 31) :
    Nat.land (Nat.lor (Nat.lor (Nat.lor sid (if e then FLAG_EVENT else 0))
      (if r then FLAG_REQUEST else 0)) (if t then FLAG_TWOWAY else 0)) FLAG_EVENT =
      (if e then FLAG_EVENT else 0) := by
  rcases e <;> rcases r <;> rcases t <;>
    simp only [FLAG_EVENT, FLAG_REQUEST, FLAG_TWOWAY, if_true, if_false,
      Bool.false_eq_true, Bool.true_eq_false, ite_true, ite_false] <;>
    interval_cases sid <;> decide

/-- The request bit mask of the encoded flag byte recovers the
request component. -/
theorem land_if_request (sid : Nat) (e r t : Bool) (h2 : sid ≤ 31) :
    Nat.land (Nat.lor (Nat.lor (Nat.lor sid (if e then FLAG_EVENT else 0))
      (if r then FLAG_REQUEST else 0)) (if t then FLAG_TWOWAY else 0)) FLAG_REQUEST =
      (if r then FLAG_REQUEST else 0) := by
  rcases e <;> rcases r <;> rcases t <;>
    simp only [FLAG_EVENT, FLAG_REQUEST, FLAG_TWOWAY, if_true, if_false,
      Bool.false_eq_true, Bool.true_eq_false, ite_true, ite_false] <;>
    interval_cases sid <;> decide

/-- The two way bit mask of the encoded flag byte recovers the two
way component. -/
theorem land_if_twoway (sid : Nat) (e r t : Bool) (h2 : sid ≤ 31) :
    Nat.land (Nat.lor (Nat.lor (Nat.lor sid (if e then FLAG_EVENT else 0))
      (if r then FLAG_REQUEST else 0)) (if t then FLAG_TWOWAY else 0)) FLAG_TWOWAY =
      (if t then FLAG_TWOWAY else 0) := by
  rcases e <;> rcases r <;> rcases t <;>
    simp only [FLAG_EVENT, FLAG_REQUEST, FLAG_TWOWAY, if_true, if_false,
      Bool.false_eq_true, Bool.true_eq_false, ite_true, ite_false] <;>
    interval_cases sid <;> decide

/-- OR with a zero accumulator. -/
theorem lor_zero_left (x : Nat) : Nat.lor 0 x = x := Nat.zero_or x

/-- Decoding an encoded header populates every field with the value
that was encoded, records type and body length on the session, and
succeeds except for the buffered mode body availability check. -/
theorem decode_encode (h : HessianCodec) (hdr0 : DubboHeader)
    (sid status rid blen : Nat) (event req twoway : Bool)
    (h1 : 1 ≤ sid) (h2 : sid ≤ 31)
    (hreq : req = true → status = 0)
    (hrid : rid < 2 ^ 64) (hblen : blen < 2 ^ 31)
    (hT0 : hdr0.Type' = 0) (hS0 : hdr0.ResponseStatus = 0) :
    decodeAndFinish h hdr0 (encodeHeader sid event req twoway status rid blen) =
      if (h.breader.Buffered : Int) < (blen : Int) /\ h.stream = false then
        (.error .bodyNotEnough,
         { hdr0 with SerialID := sid, Type' := specType event req twoway status,
                     ID := toInt64 rid, BodyLen := (blen : Int), ResponseStatus := status },
         { h with pkgType := specType event req twoway status, bodyLen := (blen : Int) })
      else
        (.ok (),
         { hdr0 with SerialID := sid, Type' := specType event req twoway status,
                     ID := toInt64 rid, BodyLen := (blen : Int), ResponseStatus := status },
         { h with pkgType := specType event req twoway status, bodyLen := (blen : Int) }) := by
  have hs0 : ¬ (sid = 0) := by omega
  have hbl : ¬ ((blen : Int) < 0) := by omega
  simp only [decodeAndFinish, encodeHeader_getD_zero, encodeHeader_getD_one,
    encodeHeader_getD_two, encodeHeader_getD_three,
    land_if_serial sid event req twoway h2, land_if_event sid event req twoway h2,
    land_if_request sid event req twoway h2, land_if_twoway sid event req twoway h2,
    beBytes_encode_rid sid event req twoway status rid blen hrid,
    beBytes_encode_blen sid event req twoway status rid blen (by omega),
    hT0, hS0, MAGIC_HIGH, MAGIC_LOW, Zero, specType]
  cases req with
  | true =>
    have hst0 : status = 0 := hreq rfl
    subst hst0
    rcases event <;> rcases twoway <;>
      simp [hs0, hbl, lor_zero_left, FLAG_EVENT, FLAG_REQUEST, FLAG_TWOWAY, Response_OK]
  | false =>
    rcases event <;> rcases twoway <;>
      by_cases hOK : status = 20 <;>
      simp [hs0, hbl, lor_zero_left, hOK, FLAG_EVENT, FLAG_REQUEST, FLAG_TWOWAY, Response_OK]

/-- A first streaming read that returns a full 16 byte chunk needs no
second read. -/
theorem acquireHeaderStream_full (c : List Nat) (rest : List ReadResult)
    (hc : c.length = 16) :
    acquireHeaderStream ⟨.bytes c :: rest⟩ = (.ok c, ⟨rest⟩) := by
  simp [acquireHeaderStream, StreamReader.Read, HEADER_LENGTH, hc,
    List.take_of_length_le (le_of_eq hc)]

/-- Claim C2: for every valid header built from the spec section 4.1
encoding (correct magic, nonzero 5 bit serialization id, any flag
combination, any big endian request id and body length in range, the
status byte zero on request frames where it is meaningless), ReadHeader
succeeds and the populated DubboHeader reproduces exactly the
serialization id, the package type bitmask derived by the section 4.1
rule, the signed request id, the body length and the response
status. -/
theorem readHeader_roundtrip (sid status rid blen : Nat) (event req twoway : Bool)
    (h1 : 1 ≤ sid) (h2 : sid ≤ 31)
    (hreq : req = true → status = 0)
    (hrid : rid < 2 ^ 64) (hblen : blen < 2 ^ 31) :
    readHeader { stream := true, breader := ⟨[], 0⟩,
                 sreader := ⟨[.bytes (encodeHeader sid event req twoway status rid blen)]⟩ }
        emptyHeader =
      (.ok (),
       { SerialID := sid, Type' := specType event req twoway status,
         ID := toInt64 rid, BodyLen := (blen : Int), ResponseStatus := status },
       { pkgType := specType event req twoway status, bodyLen := (blen : Int),
         stream := true, breader := ⟨[], 0⟩, sreader := ⟨[]⟩ }) := by
  have hlen := encodeHeader_length sid event req twoway status rid blen
  simp only [readHeader, ite_true,
    acquireHeaderStream_full (encodeHeader sid event req twoway status rid blen) [] hlen]
  rw [decode_encode { pkgType := 0, bodyLen := 0, stream := true, breader := ⟨[], 0⟩, sreader := ⟨[]⟩ } emptyHeader sid status rid blen event req twoway h1 h2 hreq hrid hblen rfl rfl]
  simp

/-- Reading inside the taken prefix is reading the original list. -/
theorem getD_take (l : List Nat) (n i : Nat) (h : i < n) :
    (l.take n).getD i 0 = l.getD i 0 := by
  simp [List.getD, List.getElem?_take, h]

/-- ReadHeader on a buffered session whose buffer holds a valid
encoded header followed by `rest`: the header decodes, the session
records type and body length, the 16 header bytes are discarded, and
the result flags body not enough exactly when fewer than blen bytes
remain buffered. -/
theorem readHeader_buffered_encoded (sid status rid blen : Nat) (event req twoway : Bool)
    (rest : List Nat) (size : Nat) (h : HessianCodec)
    (h1 : 1 ≤ sid) (h2 : sid ≤ 31) (hreq : req = true → status = 0)
    (hrid : rid < 2 ^ 64) (hblen : blen < 2 ^ 31) (hsize : 16 ≤ size)
    (hstream : h.stream = false)
    (hbr : h.breader = ⟨encodeHeader sid event req twoway status rid blen ++ rest, size⟩) :
    readHeader h emptyHeader =
      (if (rest.length : Int) < (blen : Int) then .error .bodyNotEnough else .ok (),
       { SerialID := sid, Type' := specType event req twoway status, ID := toInt64 rid,
         BodyLen := (blen : Int), ResponseStatus := status },
       { h with pkgType := specType event req twoway status, bodyLen := (blen : Int),
                breader := ⟨rest, size⟩ }) := by
  have hlen := encodeHeader_length sid event req twoway status rid blen
  rw [readHeader, hstream, if_neg (by simp)]
  rw [hbr]
  simp only [BufReader.Size, BufReader.Peek, BufReader.Discard, HEADER_LENGTH]
  rw [if_neg (by omega), if_pos (by simp [hlen]), if_pos (by simp [hlen]),
    List.take_left' hlen, List.drop_left' hlen]
  dsimp only
  rw [decode_encode { pkgType := h.pkgType, bodyLen := h.bodyLen, stream := false, breader := ⟨rest, size⟩, sreader := h.sreader } emptyHeader sid status rid blen event req twoway h1 h2 hreq hrid hblen rfl rfl]
  by_cases hc : (rest.length : Int) < (blen : Int) <;> simp [BufReader.Buffered, emptyHeader, hc]

/-- Claim C1 (amended): for every buffered input of at least 16 bytes
whose byte 0 differs from MAGIC_HIGH AND whose byte 1 differs from
MAGIC_LOW, ReadHeader fails with the illegal package error, regardless
of the remaining bytes.  (The source tests the conjunction of the two
mismatches, not the disjunction the original claim states - see the
counterexample.) -/
theorem readHeader_magic_mismatch (bytes : List Nat) (size : Nat) (hdr : DubboHeader)
    (h : HessianCodec) (hlen : 16 ≤ bytes.length) (hsize : 16 ≤ size)
    (hstream : h.stream = false) (hbr : h.breader = ⟨bytes, size⟩)
    (hm0 : bytes.getD 0 0 ≠ MAGIC_HIGH) (hm1 : bytes.getD 1 0 ≠ MAGIC_LOW) :
    (readHeader h hdr).1 = .error .illegalPackage := by
  rw [readHeader, hstream, if_neg (by simp), hbr]
  simp only [BufReader.Size, BufReader.Peek, BufReader.Discard, HEADER_LENGTH]
  rw [if_neg (by omega), if_pos (by omega), if_pos (by omega)]
  dsimp only
  simp only [decodeAndFinish]
  rw [if_pos ⟨by rw [getD_take bytes 16 0 (by omega)]; exact hm0,
              by rw [getD_take bytes 16 1 (by omega)]; exact hm1⟩]


/-- Buffered body acquisition when enough bytes are buffered: the
first bodyLen bytes are peeked and then discarded. -/
theorem acquireBody_buffered (h : HessianCodec) (body : List Nat) (size bl : Nat)
    (hstream : h.stream = false) (hbr : h.breader = ⟨body, size⟩)
    (hlen : h.bodyLen = (bl : Int)) (hbl : bl ≤ body.length) :
    acquireBody h = (.ok (body.take bl), { h with breader := ⟨body.drop bl, size⟩ }) := by
  rw [acquireBody, hstream, if_neg (by simp), hbr, hlen]
  simp only [BufReader.Buffered, BufReader.Peek, BufReader.Discard, Int.toNat_natCast]
  rw [if_neg (by omega), if_pos hbl, if_pos hbl]

/-- Buffered body acquisition with too few buffered bytes: the body
not enough error, session unchanged. -/
theorem acquireBody_buffered_short (h : HessianCodec) (body : List Nat) (size bl : Nat)
    (hstream : h.stream = false) (hbr : h.breader = ⟨body, size⟩)
    (hlen : h.bodyLen = (bl : Int)) (hbl : body.length < bl) :
    acquireBody h = (.error .bodyNotEnough, h) := by
  rw [acquireBody, hstream, if_neg (by simp)]
  rw [if_pos (by simp only [hbr, hlen, BufReader.Buffered]; omega)]

/-! ## Claims -/

/-- Claim C1 (counterexample): the claim says any 16 byte input whose
first two bytes differ from the magic (byte 0 wrong OR byte 1 wrong)
fails as illegal package.  The source condition is a conjunction
(buf[0] != MAGIC_HIGH && buf[1] != MAGIC_LOW), so an input with a
correct byte 0 and a wrong byte 1 is accepted: here byte 1 is 0x00,
not MAGIC_LOW, yet ReadHeader succeeds. -/
theorem readHeader_magic_counterexample :
    ([0xda, 0x00, 0x02, 0x14, 0, 0, 0, 0, 0, 0, 0, 0, 0, 0, 0, 0] : List Nat).getD 1 0 ≠ MAGIC_LOW ∧
    (readHeader { stream := false, breader := ⟨[0xda, 0x00, 0x02, 0x14, 0, 0, 0, 0, 0, 0, 0, 0, 0, 0, 0, 0], 16⟩, sreader := ⟨[]⟩ } emptyHeader).1 = .ok () :=
  ⟨by decide, rfl⟩

/-- Claim C1 witness: a concrete input with both magic bytes wrong is
rejected as illegal package. -/
theorem readHeader_magic_mismatch_witness :
    (readHeader { stream := false, breader := ⟨[0, 0, 0, 0, 0, 0, 0, 0, 0, 0, 0, 0, 0, 0, 0, 0], 16⟩, sreader := ⟨[]⟩ } emptyHeader).1 = .error .illegalPackage :=
  readHeader_magic_mismatch [0, 0, 0, 0, 0, 0, 0, 0, 0, 0, 0, 0, 0, 0, 0, 0] 16 emptyHeader
    { stream := false, breader := ⟨[0, 0, 0, 0, 0, 0, 0, 0, 0, 0, 0, 0, 0, 0, 0, 0], 16⟩, sreader := ⟨[]⟩ }
    (by decide) (by decide) rfl rfl (by decide) (by decide)

/-- Claim C3: the claim says that in buffered mode, fewer than 16
available bytes make ReadHeader fail with the header not enough error
without consuming bytes.  The source checks reader.Size(), the buffer
CAPACITY, not reader.Buffered(), the available count; Go bufio never
builds a buffer smaller than 16, so the capacity check never fires.
Here the capacity is 16 and only 5 bytes are available: ReadHeader
passes the capacity check, Peek fails with the wrapped source error
(the source comment says this is impossible), and the session is
returned unchanged (nothing consumed).  The error is the wrapped read
error, not ErrHeaderNotEnough. -/
theorem readHeader_short_available_io_error :
    BufReader.Buffered ⟨[1, 2, 3, 4, 5], 16⟩ < HEADER_LENGTH ∧
    (readHeader { stream := false, breader := ⟨[1, 2, 3, 4, 5], 16⟩, sreader := ⟨[]⟩ } emptyHeader).1 = .error .ioErr ∧
    (readHeader { stream := false, breader := ⟨[1, 2, 3, 4, 5], 16⟩, sreader := ⟨[]⟩ } emptyHeader).2.2 = { stream := false, breader := ⟨[1, 2, 3, 4, 5], 16⟩, sreader := ⟨[]⟩ } :=
  ⟨by decide, rfl, rfl⟩

/-- Claim C4 (counterexample): the claim says that on success all 16
header bytes have been obtained from the source.  Here the two reads
return 8 + 4 = 12 bytes with no error, the remaining 4 bytes stay at
their zero initialisation, and ReadHeader still succeeds. -/
theorem readHeader_stream_short_counterexample :
    8 + 4 < HEADER_LENGTH ∧
    (readHeader { stream := true, breader := ⟨[], 0⟩, sreader := ⟨[.bytes [0xda, 0xbb, 0x02, 0x14, 0, 0, 0, 0], .bytes [0, 0, 0, 1]]⟩ } emptyHeader).1 = .ok () :=
  ⟨by decide, rfl⟩

/-- Claim C4 (amended): in streaming mode ReadHeader performs one read
into a 16 byte zero buffer; a read error is a hard failure; if the
first read is short, exactly one additional read is attempted (its
error is also a hard failure); decoding then proceeds on the bytes the
at most two reads returned, padded with the untouched zeros - all 16
header bytes come from the source only when the two reads together
return 16 bytes. -/
theorem readHeader_stream_behavior (hdr : DubboHeader) (h : HessianCodec)
    (hstream : h.stream = true) :
    (∀ rest, h.sreader = ⟨.fail :: rest⟩ → (readHeader h hdr).1 = .error .ioErr) ∧
    (∀ c1 rest, h.sreader = ⟨.bytes c1 :: .fail :: rest⟩ → c1.length < 16 →
      (readHeader h hdr).1 = .error .ioErr) ∧
    (∀ c1 c2 rest, h.sreader = ⟨.bytes c1 :: .bytes c2 :: rest⟩ → c1.length < 16 →
      c1.length + c2.length ≤ 16 →
      readHeader h hdr = decodeAndFinish { h with sreader := ⟨rest⟩ } hdr
        ((c1 ++ c2) ++ List.replicate (16 - (c1.length + c2.length)) 0)) ∧
    (∀ c1 rest, h.sreader = ⟨.bytes c1 :: rest⟩ → c1.length = 16 →
      readHeader h hdr = decodeAndFinish { h with sreader := ⟨rest⟩ } hdr c1) := by
  refine ⟨?_, ?_, ?_, ?_⟩
  · intro rest hsr
    rw [readHeader, hstream, if_pos rfl, hsr]
    simp [acquireHeaderStream, StreamReader.Read]
  · intro c1 rest hsr hc1
    rw [readHeader, hstream, if_pos rfl, hsr]
    simp [acquireHeaderStream, StreamReader.Read, HEADER_LENGTH, hc1]
  · intro c1 c2 rest hsr hc1 hc12
    rw [readHeader, hstream, if_pos rfl, hsr]
    rw [acquireHeaderStream]
    simp only [StreamReader.Read, HEADER_LENGTH]
    rw [if_pos hc1]
    rw [List.take_of_length_le (by simp; omega)]
    simp
  · intro c1 rest hsr hc1
    rw [readHeader, hstream, if_pos rfl, hsr, acquireHeaderStream_full c1 rest hc1]

/-- Claim C4 witness: the amended streaming behavior at a concrete
source whose two reads return 8 and 4 bytes. -/
theorem readHeader_stream_behavior_witness :
    readHeader { stream := true, breader := ⟨[], 0⟩, sreader := ⟨[.bytes [0xda, 0xbb, 0x02, 0x14, 0, 0, 0, 0], .bytes [0, 0, 0, 1]]⟩ } emptyHeader =
      decodeAndFinish { stream := true, breader := ⟨[], 0⟩, sreader := ⟨[]⟩ } emptyHeader
        (([0xda, 0xbb, 0x02, 0x14, 0, 0, 0, 0] ++ [0, 0, 0, 1]) ++ List.replicate (16 - (8 + 4)) 0) :=
  (readHeader_stream_behavior emptyHeader
      { stream := true, breader := ⟨[], 0⟩, sreader := ⟨[.bytes [0xda, 0xbb, 0x02, 0x14, 0, 0, 0, 0], .bytes [0, 0, 0, 1]]⟩ }
      rfl).2.2.1
    [0xda, 0xbb, 0x02, 0x14, 0, 0, 0, 0] [0, 0, 0, 1] [] rfl (by decide) (by decide)

/-- Claim C5: the claim says a body length field that is negative as a
signed 32 bit value makes ReadHeader fail as illegal package.  The
source converts with int(binary.BigEndian.Uint32(..)); Go int is 64
bits wide on the platforms this code targets, so the converted value
is never negative and the guard is dead code: the all-ones field
0xffffffff (signed -1) decodes to BodyLen 4294967295 and ReadHeader
succeeds. -/
theorem readHeader_negative_bodylen_accepted :
    2 ^ 31 ≤ beBytes [0xda, 0xbb, 0x02, 0x14, 0, 0, 0, 0, 0, 0, 0, 0, 0xff, 0xff, 0xff, 0xff] 12 4 ∧
    (readHeader { stream := true, breader := ⟨[], 0⟩, sreader := ⟨[.bytes [0xda, 0xbb, 0x02, 0x14, 0, 0, 0, 0, 0, 0, 0, 0, 0xff, 0xff, 0xff, 0xff]]⟩ } emptyHeader).1 = .ok () ∧
    (readHeader { stream := true, breader := ⟨[], 0⟩, sreader := ⟨[.bytes [0xda, 0xbb, 0x02, 0x14, 0, 0, 0, 0, 0, 0, 0, 0, 0xff, 0xff, 0xff, 0xff]]⟩ } emptyHeader).2.1.BodyLen = 4294967295 :=
  ⟨by decide, rfl, rfl⟩

/-- Claim C2 witness: the round trip at a concrete response header
(serialization id 2, no flags, OK status, request id 1, empty
body). -/
theorem readHeader_roundtrip_witness :
    readHeader { stream := true, breader := ⟨[], 0⟩,
                 sreader := ⟨[.bytes (encodeHeader 2 false false false 20 1 0)]⟩ }
        emptyHeader =
      (.ok (),
       { SerialID := 2, Type' := specType false false false 20,
         ID := toInt64 1, BodyLen := ((0 : Nat) : Int), ResponseStatus := 20 },
       { pkgType := specType false false false 20, bodyLen := ((0 : Nat) : Int),
         stream := true, breader := ⟨[], 0⟩, sreader := ⟨[]⟩ }) :=
  readHeader_roundtrip 2 20 1 0 false false false (by decide) (by decide)
    (by decide) (by decide) (by decide)

/-- Claim C6: in buffered mode, when a valid header decodes but fewer
than bodyLength bytes remain buffered, ReadHeader returns the body not
enough error with the header fields and the session package type and
body length already populated, and ReadBody on the resulting session
also returns body not enough (for every decoder, unpacker and result
slot) while the buffered count stays below the body length. -/
theorem readHeader_readBody_body_not_enough (sid status rid blen : Nat)
    (event req twoway : Bool) (rest : List Nat) (size : Nat) (h : HessianCodec)
    (h1 : 1 ≤ sid) (h2 : sid ≤ 31) (hreq : req = true → status = 0)
    (hrid : rid < 2 ^ 64) (hblen : blen < 2 ^ 31) (hsize : 16 ≤ size)
    (hstream : h.stream = false)
    (hbr : h.breader = ⟨encodeHeader sid event req twoway status rid blen ++ rest, size⟩)
    (hshort : rest.length < blen) :
    readHeader h emptyHeader =
      (.error .bodyNotEnough,
       { SerialID := sid, Type' := specType event req twoway status, ID := toInt64 rid,
         BodyLen := (blen : Int), ResponseStatus := status },
       { h with pkgType := specType event req twoway status, bodyLen := (blen : Int),
                breader := ⟨rest, size⟩ }) ∧
    ∀ dec ureq ursp rspObj,
      (readBody dec ureq ursp
        { h with pkgType := specType event req twoway status, bodyLen := (blen : Int),
                 breader := ⟨rest, size⟩ } rspObj).1 = .err .bodyNotEnough := by
  constructor
  · rw [readHeader_buffered_encoded sid status rid blen event req twoway rest size h
      h1 h2 hreq hrid hblen hsize hstream hbr]
    rw [if_pos (by exact_mod_cast hshort)]
  · intro dec ureq ursp rspObj
    rw [readBody, acquireBody_buffered_short
      { h with pkgType := specType event req twoway status, bodyLen := (blen : Int),
               breader := ⟨rest, size⟩ } rest size blen hstream rfl rfl hshort]

/-- Claim C6 witness: a concrete response header announcing a 5 byte
body with only 3 bytes buffered behind it. -/
theorem readHeader_readBody_body_not_enough_witness :
    readHeader { stream := false, breader := ⟨encodeHeader 2 false false false 20 1 5 ++ [7, 8, 9], 16⟩, sreader := ⟨[]⟩ } emptyHeader =
      (.error .bodyNotEnough,
       { SerialID := 2, Type' := specType false false false 20, ID := toInt64 1,
         BodyLen := ((5 : Nat) : Int), ResponseStatus := 20 },
       { stream := false, pkgType := specType false false false 20,
         bodyLen := ((5 : Nat) : Int), breader := ⟨[7, 8, 9], 16⟩, sreader := ⟨[]⟩ }) ∧
    (readBody (fun _ => .ok .vother) (fun _ o => .ok o) (fun _ o => .ok o)
      { stream := false, pkgType := specType false false false 20,
        bodyLen := ((5 : Nat) : Int), breader := ⟨[7, 8, 9], 16⟩, sreader := ⟨[]⟩ }
      .nilObj).1 = .err .bodyNotEnough := by
  have hw := readHeader_readBody_body_not_enough 2 20 1 5 false false false [7, 8, 9] 16
    { stream := false, breader := ⟨encodeHeader 2 false false false 20 1 5 ++ [7, 8, 9], 16⟩, sreader := ⟨[]⟩ }
    (by decide) (by decide) (by decide) (by decide) (by decide) (by decide) rfl rfl (by decide)
  exact ⟨hw.1, hw.2 (fun _ => .ok .vother) (fun _ o => .ok o) (fun _ o => .ok o) .nilObj⟩

/-- Claim C7: when the session package type masked by 0x2f is a
response exception combination (with or without the heartbeat bit),
ReadBody decodes the body as a single value; if the result slot is a
DubboResponse container the exception text is stored on it and the
call succeeds; any other slot yields the descriptive error embedding
the exception text. -/
theorem readBody_response_exception (h : HessianCodec)
    (dec : List Nat → Except Unit HValue)
    (ureq ursp : List Nat → RspObj → Except Unit RspObj)
    (body : List Nat) (size bl : Nat) (s : String)
    (hstream : h.stream = false) (hbr : h.breader = ⟨body, size⟩)
    (hlen : h.bodyLen = (bl : Int)) (hbl : bl ≤ body.length)
    (hmask : Nat.land h.pkgType PackageType_BitSize =
        Nat.lor (Nat.lor PackageResponse PackageHeartbeat) PackageResponse_Exception ∨
      Nat.land h.pkgType PackageType_BitSize =
        Nat.lor PackageResponse PackageResponse_Exception)
    (hdec : dec (body.take bl) = .ok (.vstring s)) :
    (∀ r : DubboResponse,
      (readBody dec ureq ursp h (.dubboResponse r)).1 =
        .ok (.dubboResponse { r with Exception := some ("java exception:" ++ s) })) ∧
    (∀ obj : RspObj, (∀ r : DubboResponse, obj ≠ .dubboResponse r) →
      (readBody dec ureq ursp h obj).1 = .err (.javaException s)) := by
  have hacq := acquireBody_buffered h body size bl hstream hbr hlen hbl
  constructor
  · intro r
    rw [readBody, hacq]
    dsimp only
    simp only [dispatchBody]
    rw [if_pos hmask, hdec]
  · intro obj hobj
    rw [readBody, hacq]
    dsimp only
    simp only [dispatchBody]
    rw [if_pos hmask, hdec]

/-- Claim C7 witness: a concrete response exception frame (masked type
0x24), a DubboResponse slot storing the text, and a nil slot producing
the descriptive error. -/
theorem readBody_response_exception_witness :
    (readBody (fun _ => .ok (.vstring "boom")) (fun _ o => .ok o) (fun _ o => .ok o)
      { pkgType := 0x24, bodyLen := ((2 : Nat) : Int), stream := false,
        breader := ⟨[1, 2], 16⟩, sreader := ⟨[]⟩ }
      (.dubboResponse {})).1 =
      .ok (.dubboResponse { (({} : DubboResponse)) with Exception := some ("java exception:" ++ "boom") }) ∧
    (readBody (fun _ => .ok (.vstring "boom")) (fun _ o => .ok o) (fun _ o => .ok o)
      { pkgType := 0x24, bodyLen := ((2 : Nat) : Int), stream := false,
        breader := ⟨[1, 2], 16⟩, sreader := ⟨[]⟩ }
      .nilObj).1 = .err (.javaException "boom") := by
  have hw := readBody_response_exception
    { pkgType := 0x24, bodyLen := ((2 : Nat) : Int), stream := false,
      breader := ⟨[1, 2], 16⟩, sreader := ⟨[]⟩ }
    (fun _ => .ok (.vstring "boom")) (fun _ o => .ok o) (fun _ o => .ok o)
    [1, 2] 16 2 "boom" rfl rfl rfl (by decide) (by decide) rfl
  exact ⟨hw.1 {}, hw.2 .nilObj (by intro r hc; cases hc)⟩

/-- Claim C8: Write dispatches on the exact header type value: a
heartbeat type with zero response status routes to packRequest, a
heartbeat type with nonzero response status routes to packResponse,
the request and two way request type values route to packRequest, the
response type value routes to packResponse, any other value yields the
error naming that value, and the session state is never modified. -/
theorem write_dispatch (h : HessianCodec) (hd : DubboHeader) :
    (hd.Type' = PackageHeartbeat → hd.ResponseStatus = Zero →
      write h hd = (.packedRequest, h)) ∧
    (hd.Type' = PackageHeartbeat → hd.ResponseStatus ≠ Zero →
      write h hd = (.packedResponse, h)) ∧
    (hd.Type' = PackageRequest ∨ hd.Type' = PackageRequest_TwoWay →
      write h hd = (.packedRequest, h)) ∧
    (hd.Type' = PackageResponse → write h hd = (.packedResponse, h)) ∧
    (hd.Type' ≠ PackageHeartbeat → hd.Type' ≠ PackageRequest →
      hd.Type' ≠ PackageRequest_TwoWay → hd.Type' ≠ PackageResponse →
      write h hd = (.unrecognized hd.Type', h)) ∧
    (write h hd).2 = h := by
  refine ⟨?_, ?_, ?_, ?_, ?_, rfl⟩
  · intro ht hs
    simp [write, ht, hs, PackageHeartbeat]
  · intro ht hs
    simp [write, ht, hs, PackageHeartbeat]
  · rintro (ht | ht) <;>
      simp [write, ht, PackageHeartbeat, PackageRequest, PackageRequest_TwoWay]
  · intro ht
    simp [write, ht, PackageHeartbeat, PackageRequest, PackageRequest_TwoWay,
      PackageResponse]
  · intro h1 h2 h3 h4
    simp [write, h1, h2, h3, h4]

/-- Claim C8 witness: the dispatch at a concrete heartbeat header with
zero response status. -/
theorem write_dispatch_witness :
    write {} { SerialID := 0, Type' := PackageHeartbeat, ID := 0, BodyLen := 0,
               ResponseStatus := 0 } = (.packedRequest, {}) :=
  (write_dispatch {}
    { SerialID := 0, Type' := PackageHeartbeat, ID := 0, BodyLen := 0,
      ResponseStatus := 0 }).1 rfl rfl

/-- Claim C9: ReadAttachments, after acquiring the bodyLength body
bytes, returns for a request frame (masked type equal to the request
bit alone) the seventh positional field of the decoded argument list,
for a response frame (masked type equal to the response bit alone) the
Attachments field of the decoded response container, and for any other
masked type the nil map with no error. -/
theorem readAttachments_dispatch (h : HessianCodec)
    (ureq7 : List Nat → Except Unit (List HValue))
    (ursp7 : List Nat → Except Unit DubboResponse)
    (body : List Nat) (size bl : Nat)
    (hstream : h.stream = false) (hbr : h.breader = ⟨body, size⟩)
    (hlen : h.bodyLen = (bl : Int)) (hbl : bl ≤ body.length) :
    (Nat.land h.pkgType PackageType_BitSize = PackageRequest →
      ∀ l m, ureq7 (body.take bl) = .ok l → l.getD 6 .vother = .vmap m →
        (readAttachments ureq7 ursp7 h).1 = .ok (some m)) ∧
    (Nat.land h.pkgType PackageType_BitSize = PackageResponse →
      ∀ r, ursp7 (body.take bl) = .ok r →
        (readAttachments ureq7 ursp7 h).1 = .ok r.Attachments) ∧
    (Nat.land h.pkgType PackageType_BitSize ≠ PackageRequest →
      Nat.land h.pkgType PackageType_BitSize ≠ PackageResponse →
        (readAttachments ureq7 ursp7 h).1 = .ok none) := by
  have hacq := acquireBody_buffered h body size bl hstream hbr hlen hbl
  refine ⟨?_, ?_, ?_⟩
  · intro hk l m hl hm
    rw [readAttachments, hacq]
    dsimp only
    simp only [dispatchAttachments]
    rw [if_pos hk, hl]
    dsimp only
    rw [hm]
  · intro hk r hr
    rw [readAttachments, hacq]
    dsimp only
    simp only [dispatchAttachments]
    rw [if_neg (by rw [hk]; decide), if_pos hk, hr]
  · intro hk1 hk2
    rw [readAttachments, hacq]
    dsimp only
    simp only [dispatchAttachments]
    rw [if_neg hk1, if_neg hk2]

/-- Claim C9 witness: a concrete request frame whose seventh decoded
positional field is a map, a concrete response frame, and a concrete
heartbeat frame yielding the nil map. -/
theorem readAttachments_dispatch_witness :
    (readAttachments
      (fun _ => .ok [.vother, .vother, .vother, .vother, .vother, .vother, .vmap [("k", "v")]])
      (fun _ => .ok {})
      { pkgType := PackageRequest, bodyLen := ((1 : Nat) : Int), stream := false,
        breader := ⟨[9], 16⟩, sreader := ⟨[]⟩ }).1 = .ok (some [("k", "v")]) ∧
    (readAttachments (fun _ => .ok [])
      (fun _ => .ok { Attachments := some [("a", "b")] })
      { pkgType := PackageResponse, bodyLen := ((1 : Nat) : Int), stream := false,
        breader := ⟨[9], 16⟩, sreader := ⟨[]⟩ }).1 = .ok (some [("a", "b")]) ∧
    (readAttachments (fun _ => .ok []) (fun _ => .ok {})
      { pkgType := Nat.lor PackageRequest PackageHeartbeat, bodyLen := ((1 : Nat) : Int),
        stream := false, breader := ⟨[9], 16⟩, sreader := ⟨[]⟩ }).1 = .ok none := by
  refine ⟨?_, ?_, ?_⟩
  · exact (readAttachments_dispatch
      { pkgType := PackageRequest, bodyLen := ((1 : Nat) : Int), stream := false,
        breader := ⟨[9], 16⟩, sreader := ⟨[]⟩ }
      (fun _ => .ok [.vother, .vother, .vother, .vother, .vother, .vother, .vmap [("k", "v")]])
      (fun _ => .ok {}) [9] 16 1 rfl rfl rfl (by decide)).1 (by decide)
      [.vother, .vother, .vother, .vother, .vother, .vother, .vmap [("k", "v")]]
      [("k", "v")] rfl (by decide)
  · exact (readAttachments_dispatch
      { pkgType := PackageResponse, bodyLen := ((1 : Nat) : Int), stream := false,
        breader := ⟨[9], 16⟩, sreader := ⟨[]⟩ }
      (fun _ => .ok []) (fun _ => .ok { Attachments := some [("a", "b")] })
      [9] 16 1 rfl rfl rfl (by decide)).2.1 (by decide)
      { Attachments := some [("a", "b")] } rfl
  · exact (readAttachments_dispatch
      { pkgType := Nat.lor PackageRequest PackageHeartbeat, bodyLen := ((1 : Nat) : Int),
        stream := false, breader := ⟨[9], 16⟩, sreader := ⟨[]⟩ }
      (fun _ => .ok []) (fun _ => .ok {}) [9] 16 1 rfl rfl rfl (by decide)).2.2
      (by decide) (by decide)

/-- Claim C10: the exception branch of ReadBody asserts the decoded
value to string and the request branch of ReadAttachments asserts the
seventh decoded field to a string keyed map without checking; the
operations return normally exactly when the external decoder yields
those dynamic types, and panic (rather than returning an error) for
any other decoder output. -/
theorem unchecked_type_assertions (h : HessianCodec)
    (dec : List Nat → Except Unit HValue)
    (ureq ursp : List Nat → RspObj → Except Unit RspObj)
    (ureq7 : List Nat → Except Unit (List HValue))
    (ursp7 : List Nat → Except Unit DubboResponse)
    (body : List Nat) (size bl : Nat)
    (hstream : h.stream = false) (hbr : h.breader = ⟨body, size⟩)
    (hlen : h.bodyLen = (bl : Int)) (hbl : bl ≤ body.length) :
    (Nat.land h.pkgType PackageType_BitSize =
        Nat.lor (Nat.lor PackageResponse PackageHeartbeat) PackageResponse_Exception ∨
      Nat.land h.pkgType PackageType_BitSize =
        Nat.lor PackageResponse PackageResponse_Exception →
      ∀ v, dec (body.take bl) = .ok v → ∀ obj,
        ((readBody dec ureq ursp h obj).1 = .panicked ↔ ∀ s, v ≠ .vstring s)) ∧
    (Nat.land h.pkgType PackageType_BitSize = PackageRequest →
      ∀ l, ureq7 (body.take bl) = .ok l →
        ((readAttachments ureq7 ursp7 h).1 = .panicked ↔
          ∀ m, l.getD 6 .vother ≠ .vmap m)) := by
  have hacq := acquireBody_buffered h body size bl hstream hbr hlen hbl
  constructor
  · intro hmask v hdec obj
    rw [readBody, hacq]
    dsimp only
    simp only [dispatchBody]
    rw [if_pos hmask, hdec]
    dsimp only
    cases obj <;> cases v <;>
      simp
  · intro hk l hl
    rw [readAttachments, hacq]
    dsimp only
    simp only [dispatchAttachments]
    rw [if_pos hk, hl]
    dsimp only
    rcases hv : l.getD 6 .vother <;> simp [hv]

/-- Claim C10 witness: with a non string decoded exception value
ReadBody panics on a response exception frame, and with a non map
seventh field ReadAttachments panics on a request frame. -/
theorem unchecked_type_assertions_witness :
    ((readBody (fun _ => .ok .vother) (fun _ o => .ok o) (fun _ o => .ok o)
      { pkgType := 0x24, bodyLen := ((1 : Nat) : Int), stream := false,
        breader := ⟨[9], 16⟩, sreader := ⟨[]⟩ } .nilObj).1 = .panicked ↔
      ∀ s, HValue.vother ≠ .vstring s) ∧
    ((readAttachments (fun _ => .ok []) (fun _ => .ok {})
      { pkgType := PackageRequest, bodyLen := ((1 : Nat) : Int), stream := false,
        breader := ⟨[9], 16⟩, sreader := ⟨[]⟩ }).1 = .panicked ↔
      ∀ m, ([] : List HValue).getD 6 .vother ≠ .vmap m) := by
  constructor
  · exact (unchecked_type_assertions
      { pkgType := 0x24, bodyLen := ((1 : Nat) : Int), stream := false,
        breader := ⟨[9], 16⟩, sreader := ⟨[]⟩ }
      (fun _ => .ok .vother) (fun _ o => .ok o) (fun _ o => .ok o)
      (fun _ => .ok []) (fun _ => .ok {}) [9] 16 1
      rfl rfl rfl (by decide)).1 (by decide) .vother rfl .nilObj
  · exact (unchecked_type_assertions
      { pkgType := PackageRequest, bodyLen := ((1 : Nat) : Int), stream := false,
        breader := ⟨[9], 16⟩, sreader := ⟨[]⟩ }
      (fun _ => .ok .vother) (fun _ o => .ok o) (fun _ o => .ok o)
      (fun _ => .ok []) (fun _ => .ok {}) [9] 16 1
      rfl rfl rfl (by decide)).2 (by decide) [] rfl
